import Mathlib

/-!
# Verification of the SIEM risk-decision and automated-response pipeline

Shallow embedding of the core pipeline of `siem-enterprise`:
the WAF detection engine (`waf/main.py`), the risk scorer and decision
policy (`risk-engine/main.py`), the reputation-update trigger
(`update_ip_rep` in `risk-engine/main.py`), and the SOAR action
executor / incident creation / rollback (`soar/main.py`).

Python floats are modelled as rationals (`ℚ`); SQL integer counters as
`ℕ`; the Redis key/value store as an association list; the external
enforcement point's HTTP reply as `Except String Nat` (exception
message or status code).
-/

namespace SIEM

/-- Severity levels stored in `owasp_detections.severity`. -/
inductive Severity
  | LOW
  | MEDIUM
  | HIGH
  | CRITICAL
deriving DecidableEq

/-- One row of `owasp_detections` / one element of the WAF detection list:
`{"type": ..., "code": ..., "severity": ..., "confidence": ...}` with an
optional `"ua"` field added by the scanner user-agent check. -/
structure Detection where
  dtype : String
  code : String
  severity : Severity
  confidence : ℚ
  ua : Option String
deriving DecidableEq

/-- Row of `ml_predictions` consumed by `assess_risk` (the fields
`calculate_risk` reads). -/
structure MLData where
  anomaly_score : ℚ
  attack_probability : ℚ
deriving DecidableEq

/-- The `behavioral` dict built in `assess_risk`; `calculate_risk` only reads
`"blocked_ratio"` (default `0.0` when the dict is empty). -/
structure Behavioral where
  blocked_ratio : ℚ
deriving DecidableEq

/-- `WEIGHTS = {"ml": 0.40, "owasp": 0.30, "behavioral": 0.20, "contextual": 0.10}`. -/
def WEIGHTS_ml : ℚ := 0.40

/-- `WEIGHTS["owasp"]`. -/
def WEIGHTS_owasp : ℚ := 0.30

/-- `WEIGHTS["behavioral"]`. -/
def WEIGHTS_behavioral : ℚ := 0.20

/-- `WEIGHTS["contextual"]` — declared but never used by `calculate_risk`. -/
def WEIGHTS_contextual : ℚ := 0.10

/-- Default of `RISK_THRESHOLD_BLOCK` (env default `"0.9"`). -/
def RISK_THRESHOLD_BLOCK : ℚ := 0.9

/-- Default of `RISK_THRESHOLD_CAPTCHA` (env default `"0.7"`). -/
def RISK_THRESHOLD_CAPTCHA : ℚ := 0.7

/-- `severity_map = {"CRITICAL": 1.0, "HIGH": 0.8, "MEDIUM": 0.5, "LOW": 0.3}`. -/
def severity_map : Severity → ℚ
  | .CRITICAL => 1.0
  | .HIGH => 0.8
  | .MEDIUM => 0.5
  | .LOW => 0.3

/-- The `ml_score` computed in `calculate_risk`: `0.0` when `ml_data` is the
empty dict, otherwise `anomaly_score * 0.6 + attack_probability * 0.4`. -/
def ml_score (ml_data : Option MLData) : ℚ :=
  match ml_data with
  | none => 0
  | some m => m.anomaly_score * 0.6 + m.attack_probability * 0.4

/-- The `owasp_score` computed in `calculate_risk`:
`max([severity_map[d.severity] for d in owasp_data], default=0.0)`. -/
def owasp_score (owasp_data : List Detection) : ℚ :=
  (owasp_data.map (fun d => severity_map d.severity)).foldl max 0

/-- The `behavioral_score` computed in `calculate_risk`:
`min(blocked_ratio * 2.0, 1.0)` with `blocked_ratio` defaulting to `0.0`. -/
def behavioral_score (behavioral : Option Behavioral) : ℚ :=
  let r : ℚ := match behavioral with
    | none => 0
    | some b => b.blocked_ratio
  min (r * 2) 1

/-- `calculate_risk(ml_data, owasp_data, behavioral)` from
`risk-engine/main.py`: the weighted combination of the three component
scores, clamped above by `1.0`. -/
def calculate_risk (ml_data : Option MLData) (owasp_data : List Detection)
    (behavioral : Option Behavioral) : ℚ :=
  min (ml_score ml_data * WEIGHTS_ml +
       owasp_score owasp_data * WEIGHTS_owasp +
       behavioral_score behavioral * WEIGHTS_behavioral)
      1

/-- Recommended actions produced by `decide_action`. -/
inductive Action
  | BLOCK_IP
  | CAPTCHA
  | RATE_LIMIT
  | ALERT_ONLY
deriving DecidableEq

/-- Risk levels produced by `decide_action`. -/
inductive Level
  | CRITICAL
  | HIGH
  | MEDIUM
  | LOW
deriving DecidableEq

/-- Values of the `AUTOMATION_LEVEL` environment variable recognised by
`decide_action`; `other` stands for any unrecognised string (dict `.get`
default `True`). -/
inductive AutomationLevel
  | manual
  | semi_auto
  | auto
  | strict
  | other
deriving DecidableEq

/-- The `requires_validation` dict lookup in `decide_action`. -/
def requires_validation (mode : AutomationLevel) (risk_score : ℚ) : Bool :=
  match mode with
  | .manual => true
  | .semi_auto => decide (risk_score ≥ 0.8)
  | .auto => decide (risk_score ≥ 0.95)
  | .strict => false
  | .other => true

/-- Result record of `decide_action`. -/
structure Decision where
  action : Action
  level : Level
  req_validation : Bool
deriving DecidableEq

/-- `decide_action(risk_score)` from `risk-engine/main.py`, with the default
thresholds (`RISK_THRESHOLD_BLOCK = 0.9`, `RISK_THRESHOLD_CAPTCHA = 0.7`)
and the automation level passed explicitly. -/
def decide_action (mode : AutomationLevel) (risk_score : ℚ) : Decision :=
  if risk_score ≥ RISK_THRESHOLD_BLOCK then
    { action := .BLOCK_IP, level := .CRITICAL,
      req_validation := requires_validation mode risk_score }
  else if risk_score ≥ RISK_THRESHOLD_CAPTCHA then
    { action := .CAPTCHA, level := .HIGH,
      req_validation := requires_validation mode risk_score }
  else if risk_score ≥ 0.5 then
    { action := .RATE_LIMIT, level := .MEDIUM,
      req_validation := requires_validation mode risk_score }
  else
    { action := .ALERT_ONLY, level := .LOW,
      req_validation := requires_validation mode risk_score }

/-! ## Reputation tracker (`update_ip_rep` trigger in `risk-engine/main.py`) -/

/-- Row of the `ip_reputation` table (the columns the trigger touches plus
the whitelist/blacklist flags). -/
structure RepRecord where
  total_requests : ℕ
  blocked_requests : ℕ
  suspicious_requests : ℕ
  reputation_score : ℚ
  is_whitelisted : Bool
  is_blacklisted : Bool
deriving DecidableEq

/-- `1` when the flag is set, `0` otherwise (SQL `CASE WHEN b THEN 1 ELSE 0 END`). -/
def boolCount (b : Bool) : ℕ := if b then 1 else 0

/-- The PL/pgSQL trigger `update_ip_rep()` fired after each insert into
`raw_requests`: upsert of the source's `ip_reputation` row.  On first
observation the row is created with the column defaults
(`reputation_score DEFAULT 0.5`, flags false); on conflict the counters are
incremented and `reputation_score` is recomputed by the `CASE` over the
updated blocked/total ratio. -/
def update_ip_rep (existing : Option RepRecord) (is_blocked is_suspicious : Bool) :
    RepRecord :=
  match existing with
  | none =>
    { total_requests := 1
      blocked_requests := boolCount is_blocked
      suspicious_requests := boolCount is_suspicious
      reputation_score := 0.5
      is_whitelisted := false
      is_blacklisted := false }
  | some r =>
    let new_blocked : ℕ := r.blocked_requests + boolCount is_blocked
    let new_total : ℕ := r.total_requests + 1
    { total_requests := new_total
      blocked_requests := new_blocked
      suspicious_requests := r.suspicious_requests + boolCount is_suspicious
      reputation_score :=
        if (new_blocked : ℚ) / (new_total : ℚ) > 0.5 then 0.1
        else if (new_blocked : ℚ) / (new_total : ℚ) > 0.2 then 0.3
        else 0.7
      is_whitelisted := r.is_whitelisted
      is_blacklisted := r.is_blacklisted }

/-- The ratio-to-score map used by the trigger's `CASE` expression, on its
own so monotonicity can be stated. -/
def rep_score_of (r : ℚ) : ℚ :=
  if r > 0.5 then 0.1 else if r > 0.2 then 0.3 else 0.7

/-! ## WAF detection engine (`detect_owasp` in `waf/main.py`) -/

/-- One entry of the `OWASP_PATTERNS` dict: OWASP code, severity, and the
ordered list of regular-expression patterns of the category. -/
structure PatternConfig where
  category : String
  code : String
  severity : Severity
  patterns : List String
deriving DecidableEq

/-- `OWASP_PATTERNS` from `waf/main.py` (dict iteration order = insertion
order; apostrophes in the regex texts written `\x27`). -/
def OWASP_PATTERNS : List PatternConfig :=
  [ { category := "SQL_INJECTION", code := "A03:2021", severity := .CRITICAL,
      patterns :=
        [ "(\\bUNION\\b.*\\bSELECT\\b)", "(\\bOR\\b\\s+\\d+\\s*=\\s*\\d+)",
          "(\x27;?\\s*DROP\\s+TABLE)", "(1\x27\\s*OR\\s*\x271\x27\\s*=\\s*\x271)",
          "(\\bEXEC\\b.*\\bxp_cmdshell\\b)", "(\\bINSERT\\b.*\\bINTO\\b.*\\bVALUES\\b)",
          "(--\\s*$)", "(/\\*.*\\*/)", "(\\bSLEEP\\s*\\(\\d+\\))" ] },
    { category := "XSS", code := "A03:2021", severity := .HIGH,
      patterns :=
        [ "(<script[^>]*>)", "(javascript:)", "(onerror\\s*=)",
          "(onload\\s*=)", "(<iframe)", "(document\\.cookie)",
          "(eval\\s*\\()", "(alert\\s*\\()", "(String\\.fromCharCode)" ] },
    { category := "PATH_TRAVERSAL", code := "A01:2021", severity := .HIGH,
      patterns :=
        [ "(\\.\\./|\\.\\.\\\\)", "(%2e%2e[/%5c])", "(\\.\\.%2f)",
          "(/etc/passwd)", "(/etc/shadow)", "(c:\\\\windows)" ] },
    { category := "COMMAND_INJECTION", code := "A03:2021", severity := .CRITICAL,
      patterns :=
        [ "(;\\s*cat\\s+/etc)", "(\\|\\s*ls\\s+)", "(\x60[^\x60]+\x60)",
          "(\\$\\([^)]+\\))", "(&&\\s*whoami)", "(;\\s*id\\s*;)" ] },
    { category := "XXE", code := "A05:2021", severity := .HIGH,
      patterns :=
        [ "(<!ENTITY)", "(<!DOCTYPE.*SYSTEM)", "(SYSTEM\\s+[\x27\"]file)" ] },
    { category := "SSRF", code := "A10:2021", severity := .HIGH,
      patterns :=
        [ "(file://)", "(gopher://)", "(dict://)",
          "(localhost|127\\.0\\.0\\.1|0\\.0\\.0\\.0|169\\.254\\.)" ] },
    { category := "SCANNER", code := "A05:2021", severity := .MEDIUM,
      patterns :=
        [ "(sqlmap)", "(nikto)", "(nmap)", "(masscan)", "(acunetix)" ] } ]

/-- `SUSPICIOUS_USER_AGENTS` from `waf/main.py`. -/
def SUSPICIOUS_USER_AGENTS : List String :=
  [ "sqlmap", "nikto", "nmap", "masscan", "acunetix", "nessus",
    "openvas", "dirbuster", "gobuster", "hydra", "medusa" ]

/-- The textual inputs `detect_owasp` inspects. -/
structure WafRequest where
  url : String
  query : String
  body : String
  user_agent : String
deriving DecidableEq

/-- Python `needle in haystack` on strings. -/
def strContains (needle haystack : String) : Bool :=
  decide (needle.data <:+: haystack.data)

/-- The inspected content string
`f"{url} {query} {body}".lower()` of `detect_owasp`. -/
def waf_content (req : WafRequest) : String :=
  (req.url ++ " " ++ req.query ++ " " ++ req.body).toLower

/-- The outer loop of `detect_owasp`: for each category, the first pattern
matched by `re.search` (modelled by the abstract, deterministic predicate
`m pattern content`) yields one detection and `break` skips the rest.
`List.find?` is exactly first-match-then-break. -/
def sig_detections (m : String → String → Bool) (content : String) :
    List Detection :=
  OWASP_PATTERNS.filterMap fun config =>
    (config.patterns.find? (fun p => m p content)).map fun _ =>
      { dtype := config.category, code := config.code,
        severity := config.severity, confidence := 0.9, ua := none }

/-- The suspicious user-agent loop of `detect_owasp`: the first
`sus_ua in ua` hit yields one SCANNER detection and `break` exits. -/
def ua_detections (ua : String) : List Detection :=
  match SUSPICIOUS_USER_AGENTS.find? (fun s => strContains s ua) with
  | some s =>
    [ { dtype := "SCANNER", code := "A05:2021", severity := .MEDIUM,
        confidence := 0.95, ua := some s } ]
  | none => []

/-- `detect_owasp(request, body)` from `waf/main.py`: the signature-loop
detections followed by the scanner-user-agent detection, appended to the
same list in program order. -/
def detect_owasp (m : String → String → Bool) (req : WafRequest) :
    List Detection :=
  sig_detections m (waf_content req) ++ ua_detections req.user_agent.toLower

/-! ## SOAR engine (`soar/main.py`) -/

/-- The shared Redis key/value store, as an association list
(`setex` value and expiry collapsed to the value: expiry is real time,
out of scope). -/
abbrev RedisStore : Type := List (String × String)

/-- `redis.setex key _ value` (upsert of one key). -/
def setKey (s : RedisStore) (k v : String) : RedisStore :=
  (k, v) :: List.filter (fun p => p.1 ≠ k) s

/-- `redis.delete key`. -/
def delKey (s : RedisStore) (k : String) : RedisStore :=
  List.filter (fun p => p.1 ≠ k) s

/-- `redis.get key` (first binding wins, matching `setKey`). -/
def getKey (s : RedisStore) (k : String) : Option String :=
  (List.find? (fun p => p.1 = k) s).map Prod.snd

/-- Env default `ENABLE_AUTO_BLOCK = "true"`. -/
def ENABLE_AUTO_BLOCK : Bool := true

/-- Env default `ENABLE_CAPTCHA = "true"`. -/
def ENABLE_CAPTCHA : Bool := true

/-- Result dict of `execute_action`. -/
structure ExecResult where
  executed : Bool
  message : String
deriving DecidableEq

/-- `execute_action(action_type, target_ip, duration_minutes)` from
`soar/main.py`.  The enforcement point's reply to the WAF `block-ip` call
is passed in as `wafResp` (`.error e` = the `httpx` call raised, `.ok n` =
HTTP status `n`); the Redis store is threaded explicitly.  Only a 200
reply creates the `blocked_ip:` deny entry. -/
def execute_action (wafResp : Except String ℕ) (store : RedisStore)
    (action_type target_ip : String) (duration_minutes : ℕ) :
    ExecResult × RedisStore :=
  if action_type = "BLOCK_IP" ∧ ENABLE_AUTO_BLOCK then
    match wafResp with
    | .error e =>
      ({ executed := false, message := "WAF unreachable: " ++ e }, store)
    | .ok code =>
      if code = 200 then
        ({ executed := true,
           message := "IP " ++ target_ip ++ " blocked for " ++
                      toString duration_minutes ++ "min" },
         setKey store ("blocked_ip:" ++ target_ip) "SOAR_AUTO_BLOCK")
      else
        ({ executed := false, message := "WAF returned " ++ toString code },
         store)
  else if action_type = "CAPTCHA" ∧ ENABLE_CAPTCHA then
    ({ executed := true, message := "CAPTCHA required for " ++ target_ip },
     setKey store ("require_captcha:" ++ target_ip) "1")
  else if action_type = "RATE_LIMIT" then
    ({ executed := true,
       message := "Strict rate limit (10/min) applied to " ++ target_ip },
     setKey store ("rate_limit_strict:" ++ target_ip) "10")
  else if action_type = "ALERT_ONLY" then
    ({ executed := true, message := "Alert logged — no blocking action" },
     store)
  else
    ({ executed := false, message := "Unknown action: " ++ action_type }, store)

/-- The `action_status` value `execute_soar` persists into `soar_actions`:
`"EXECUTED" if result["executed"] else "FAILED"`. -/
def soar_action_status (result : ExecResult) : String :=
  if result.executed then "EXECUTED" else "FAILED"

/-- Row of the `incidents` table (the columns `execute_soar` writes). -/
structure Incident where
  incident_type : String
  severity : String
  status : String
  source_ip : String
  total_requests_involved : ℕ
  blocked_requests_count : ℕ
deriving DecidableEq

/-- The incident-creation step of `execute_soar`: when `risk_score >= 0.8`
a fresh `incidents` row is inserted (severity by score, status by whether
the action executed); the returned index is the new row's position.
No existing row is read or updated. -/
def incident_step (incidents : List Incident) (recommended_action : String)
    (risk_score : ℚ) (target_ip : String) (executed : Bool) :
    List Incident × Option ℕ :=
  if risk_score ≥ 0.8 then
    (incidents ++
      [ { incident_type := recommended_action
          severity := if risk_score ≥ 0.9 then "CRITICAL" else "HIGH"
          status := if ¬executed then "OPEN" else "INVESTIGATING"
          source_ip := target_ip
          total_requests_involved := 1
          blocked_requests_count := 1 } ],
     some incidents.length)
  else
    (incidents, none)

/-- Row of the `soar_actions` table (the columns `rollback` reads/writes). -/
structure SoarAction where
  action_type : String
  action_status : String
  target_ip : String
  rollback_at : Option ℕ
  rollback_reason : Option String
deriving DecidableEq

/-- The Redis key `rollback` removes for an action, when any:
`blocked_ip:` via the WAF `unblock-ip` endpoint for `BLOCK_IP`,
`rate_limit_strict:`/`require_captcha:` directly for the other two. -/
def rollback_key (a : SoarAction) : Option String :=
  if a.action_type = "BLOCK_IP" then some ("blocked_ip:" ++ a.target_ip)
  else if a.action_type = "RATE_LIMIT" then
    some ("rate_limit_strict:" ++ a.target_ip)
  else if a.action_type = "CAPTCHA" then
    some ("require_captcha:" ++ a.target_ip)
  else none

/-- The enforcement-state effect of `rollback(action_id)`: delete the
action's enforcement entry, if the action type has one. -/
def rollback_enforce (store : RedisStore) (a : SoarAction) : RedisStore :=
  match rollback_key a with
  | some k => delKey store k
  | none => store

/-- `rollback(action_id)` from `soar/main.py`, on a found action: removes
the enforcement entry, stamps `rollback_at`/`rollback_reason`, and returns
success (the endpoint never checks `action_status` or a prior
`rollback_at` and always answers `success=True`). -/
def rollback (store : RedisStore) (a : SoarAction) (now : ℕ) :
    RedisStore × SoarAction × Bool :=
  (rollback_enforce store a,
   { a with rollback_at := some now, rollback_reason := some "Manual rollback" },
   true)

/-! ## Risk-assessment flow and concrete instances -/

/-- The `behavioral` dict built by `assess_risk`: empty when the source
has no `ip_reputation` row, else `blocked / max(total, 1)`. -/
def behavioral_of (ip_rep : Option RepRecord) : Option Behavioral :=
  match ip_rep with
  | none => none
  | some rep =>
    some { blocked_ratio :=
      (rep.blocked_requests : ℚ) / ((max rep.total_requests 1 : ℕ) : ℚ) }

/-- The scoring-and-decision core of the `/api/assess` handler, after the
three lookups resolved: `risk_score = calculate_risk(...)` and
`decision = decide_action(risk_score)`.  A missing `ml_predictions` row
arrives as `none`.  The function is total: no branch raises. -/
def assess_risk (ml : Option MLData) (owasp : List Detection)
    (ip_rep : Option RepRecord) (mode : AutomationLevel) : ℚ × Decision :=
  let risk := calculate_risk ml owasp (behavioral_of ip_rep)
  (risk, decide_action mode risk)

/-- ML verdict of the spec scenario: anomaly 0.9, probability 0.8. -/
def mlScenario : MLData := { anomaly_score := 0.9, attack_probability := 0.8 }

/-- Detection of the spec scenario: SQL_INJECTION at CRITICAL severity. -/
def detScenario : Detection :=
  { dtype := "SQL_INJECTION", code := "A03:2021", severity := .CRITICAL,
    confidence := 0.9, ua := none }

/-- Request used to instantiate the C4 theorem. -/
def reqScanner : WafRequest :=
  { url := "http://shop/search?q=1 UNION SELECT a", query := "q=1 UNION SELECT a",
    body := "", user_agent := "sqlmap/1.7" }

/-- Record used to instantiate the C5 and C6 theorems. -/
def repWitness : RepRecord :=
  { total_requests := 4, blocked_requests := 2, suspicious_requests := 1,
    reputation_score := 0.3, is_whitelisted := false, is_blacklisted := false }

/-- A whitelisted record (score pinned to `1.0` by the admin console). -/
def repWhitelisted : RepRecord :=
  { total_requests := 10, blocked_requests := 0, suspicious_requests := 0,
    reputation_score := 1.0, is_whitelisted := true, is_blacklisted := false }

/-- A BLOCK_IP action whose execution failed (no deny entry exists). -/
def failedAction : SoarAction :=
  { action_type := "BLOCK_IP", action_status := "FAILED",
    target_ip := "198.51.100.9", rollback_at := none, rollback_reason := none }

/-- An already-open incident for source 10.0.0.1. -/
def incOpen : Incident :=
  { incident_type := "BLOCK_IP", severity := "CRITICAL", status := "OPEN",
    source_ip := "10.0.0.1", total_requests_involved := 1,
    blocked_requests_count := 1 }

/-! ## Helper lemmas -/

/-- `decide_action` at or above the block threshold. -/
theorem decide_action_of_block {s : ℚ} (mode : AutomationLevel)
    (h : RISK_THRESHOLD_BLOCK ≤ s) :
    decide_action mode s =
      { action := .BLOCK_IP, level := .CRITICAL,
        req_validation := requires_validation mode s } := by
  unfold decide_action
  rw [if_pos h]

/-- `decide_action` in the captcha band. -/
theorem decide_action_of_captcha {s : ℚ} (mode : AutomationLevel)
    (h1 : RISK_THRESHOLD_CAPTCHA ≤ s) (h2 : s < RISK_THRESHOLD_BLOCK) :
    decide_action mode s =
      { action := .CAPTCHA, level := .HIGH,
        req_validation := requires_validation mode s } := by
  unfold decide_action
  rw [if_neg (not_le.mpr h2), if_pos h1]

/-- `decide_action` in the rate-limit band. -/
theorem decide_action_of_rate_limit {s : ℚ} (mode : AutomationLevel)
    (h1 : (0.5 : ℚ) ≤ s) (h2 : s < RISK_THRESHOLD_CAPTCHA) :
    decide_action mode s =
      { action := .RATE_LIMIT, level := .MEDIUM,
        req_validation := requires_validation mode s } := by
  unfold decide_action
  have h3 : s < RISK_THRESHOLD_BLOCK := by
    have : RISK_THRESHOLD_CAPTCHA < RISK_THRESHOLD_BLOCK := by
      norm_num [RISK_THRESHOLD_BLOCK, RISK_THRESHOLD_CAPTCHA]
    linarith
  rw [if_neg (not_le.mpr h3), if_neg (not_le.mpr h2), if_pos h1]

/-- `decide_action` in the alert-only band. -/
theorem decide_action_of_alert {s : ℚ} (mode : AutomationLevel)
    (h : s < (0.5 : ℚ)) :
    decide_action mode s =
      { action := .ALERT_ONLY, level := .LOW,
        req_validation := requires_validation mode s } := by
  unfold decide_action
  have h2 : s < RISK_THRESHOLD_CAPTCHA := by
    have : (0.5 : ℚ) < RISK_THRESHOLD_CAPTCHA := by norm_num [RISK_THRESHOLD_CAPTCHA]
    linarith
  have h3 : s < RISK_THRESHOLD_BLOCK := by
    have : (0.5 : ℚ) < RISK_THRESHOLD_BLOCK := by norm_num [RISK_THRESHOLD_BLOCK]
    linarith
  rw [if_neg (not_le.mpr h3), if_neg (not_le.mpr h2), if_neg (not_le.mpr h)]

/-! ## C1 — the spec's SQL-injection scenario -/

/-- C1 counterexample: on the scenario
`detections=[{SQL_INJECTION, CRITICAL}], anomaly 0.9, prob 0.8,
blocked_ratio 0.6` the code computes risk `0.86·0.40 + 1.0·0.30 + 1.0·0.20
= 0.844`, which is strictly below the default block threshold `0.9`, and
`decide_action` answers CAPTCHA, not BLOCK_IP. -/
theorem scenario_sql_critical_counterexample :
    calculate_risk (some mlScenario) [detScenario] (some { blocked_ratio := 0.6 })
        = 211 / 250
    ∧ ¬ (RISK_THRESHOLD_BLOCK ≤ (211 / 250 : ℚ))
    ∧ (decide_action .semi_auto
        (calculate_risk (some mlScenario) [detScenario]
          (some { blocked_ratio := 0.6 }))).action ≠ Action.BLOCK_IP := by
  have hv : calculate_risk (some mlScenario) [detScenario]
      (some { blocked_ratio := 0.6 }) = 211 / 250 := by
    norm_num [calculate_risk, ml_score, owasp_score, behavioral_score,
      WEIGHTS_ml, WEIGHTS_owasp, WEIGHTS_behavioral, mlScenario, detScenario,
      severity_map]
  refine ⟨hv, by norm_num [RISK_THRESHOLD_BLOCK], ?_⟩
  rw [hv, decide_action_of_captcha .semi_auto
      (by norm_num [RISK_THRESHOLD_CAPTCHA]) (by norm_num [RISK_THRESHOLD_BLOCK])]
  simp

/-- C1 (amended): on the scenario the computed risk score is `0.844`; it
reaches the captcha threshold (default 0.7) but not the block threshold
(default 0.9), so for every automation level the decision is
action=CAPTCHA with level=HIGH. -/
theorem scenario_sql_critical_captcha (mode : AutomationLevel) :
    calculate_risk (some mlScenario) [detScenario] (some { blocked_ratio := 0.6 })
        = 211 / 250
    ∧ RISK_THRESHOLD_CAPTCHA ≤ (211 / 250 : ℚ)
    ∧ (decide_action mode (211 / 250)).action = Action.CAPTCHA
    ∧ (decide_action mode (211 / 250)).level = Level.HIGH := by
  refine ⟨?_, by norm_num [RISK_THRESHOLD_CAPTCHA], ?_, ?_⟩
  · norm_num [calculate_risk, ml_score, owasp_score, behavioral_score,
      WEIGHTS_ml, WEIGHTS_owasp, WEIGHTS_behavioral, mlScenario, detScenario,
      severity_map]
  · rw [decide_action_of_captcha mode
      (by norm_num [RISK_THRESHOLD_CAPTCHA]) (by norm_num [RISK_THRESHOLD_BLOCK])]
  · rw [decide_action_of_captcha mode
      (by norm_num [RISK_THRESHOLD_CAPTCHA]) (by norm_num [RISK_THRESHOLD_BLOCK])]

/-! ## C3 — the decision bands -/

/-- C3: with the default thresholds, `decide_action` maps every score in
`[0,1]` into exactly one of the four bands, and a boundary score resolves
upward: `score = block_threshold` gives BLOCK_IP/CRITICAL,
`score = captcha_threshold` gives CAPTCHA/HIGH, `score = 0.5` gives
RATE_LIMIT/MEDIUM, and everything below 0.5 gives ALERT_ONLY/LOW. -/
theorem decide_action_partitions (mode : AutomationLevel) (s : ℚ)
    (h0 : 0 ≤ s) (h1 : s ≤ 1) :
    (((decide_action mode s).action = Action.BLOCK_IP ∧
        (decide_action mode s).level = Level.CRITICAL) ↔ RISK_THRESHOLD_BLOCK ≤ s)
    ∧ (((decide_action mode s).action = Action.CAPTCHA ∧
        (decide_action mode s).level = Level.HIGH) ↔
          RISK_THRESHOLD_CAPTCHA ≤ s ∧ s < RISK_THRESHOLD_BLOCK)
    ∧ (((decide_action mode s).action = Action.RATE_LIMIT ∧
        (decide_action mode s).level = Level.MEDIUM) ↔
          (0.5 : ℚ) ≤ s ∧ s < RISK_THRESHOLD_CAPTCHA)
    ∧ (((decide_action mode s).action = Action.ALERT_ONLY ∧
        (decide_action mode s).level = Level.LOW) ↔ s < (0.5 : ℚ)) := by
  have hb : RISK_THRESHOLD_BLOCK = (0.9 : ℚ) := rfl
  have hc : RISK_THRESHOLD_CAPTCHA = (0.7 : ℚ) := rfl
  rw [hb, hc]
  rcases le_or_lt RISK_THRESHOLD_BLOCK s with c1 | c1
  · rw [decide_action_of_block mode c1]
    rw [hb] at c1
    refine ⟨?_, ?_, ?_, ?_⟩ <;> simp [c1] <;> intros <;> linarith
  · rcases le_or_lt RISK_THRESHOLD_CAPTCHA s with c2 | c2
    · rw [decide_action_of_captcha mode c2 c1]
      rw [hb] at c1
      rw [hc] at c2
      refine ⟨?_, ?_, ?_, ?_⟩ <;> simp [c1, c2] <;> intros <;> linarith
    · rcases le_or_lt (0.5 : ℚ) s with c3 | c3
      · rw [decide_action_of_rate_limit mode c3 c2]
        rw [hc] at c2
        refine ⟨?_, ?_, ?_, ?_⟩ <;> simp [c2, c3] <;> intros <;> linarith
      · rw [decide_action_of_alert mode c3]
        refine ⟨?_, ?_, ?_, ?_⟩ <;> simp [c3] <;> intros <;> linarith

/-- C3 witness: the boundary score `0.9` resolves to BLOCK_IP/CRITICAL. -/
theorem decide_action_partitions_witness :
    (decide_action .semi_auto (0.9 : ℚ)).action = Action.BLOCK_IP ∧
    (decide_action .semi_auto (0.9 : ℚ)).level = Level.CRITICAL :=
  (decide_action_partitions .semi_auto (0.9 : ℚ) (by norm_num) (by norm_num)).1.mpr
    (by norm_num [RISK_THRESHOLD_BLOCK])

/-! ## C2 — the score never exceeds 0.9 -/

/-- A `foldl max` stays below any bound on its seed and elements. -/
theorem foldl_max_le (c : ℚ) :
    ∀ (l : List ℚ) (a : ℚ), a ≤ c → (∀ x ∈ l, x ≤ c) → l.foldl max a ≤ c := by
  intro l
  induction l with
  | nil => intro a ha _; simpa using ha
  | cons x xs ih =>
    intro a ha hx
    simp only [List.foldl_cons]
    exact ih (max a x) (max_le ha (hx x (by simp)))
      (fun y hy => hx y (by simp [hy]))

/-- Every severity maps into `[0.3, 1]`, hence at most `1`. -/
theorem severity_map_le_one (s : Severity) : severity_map s ≤ 1 := by
  cases s <;> norm_num [severity_map]

/-- The OWASP component is at most `1`. -/
theorem owasp_score_le_one (d : List Detection) : owasp_score d ≤ 1 := by
  unfold owasp_score
  refine foldl_max_le 1 _ 0 (by norm_num) ?_
  intro x hx
  simp only [List.mem_map] at hx
  obtain ⟨dd, _, rfl⟩ := hx
  exact severity_map_le_one dd.severity

/-- The ML component is at most `1` when both verdict fields lie in `[0,1]`. -/
theorem ml_score_le_one (ml : Option MLData)
    (hml : ∀ m, ml = some m → 0 ≤ m.anomaly_score ∧ m.anomaly_score ≤ 1 ∧
      0 ≤ m.attack_probability ∧ m.attack_probability ≤ 1) :
    ml_score ml ≤ 1 := by
  cases ml with
  | none => norm_num [ml_score]
  | some m =>
    obtain ⟨_, h1, _, h2⟩ := hml m rfl
    simp only [ml_score]
    nlinarith

/-- C2: for every ML verdict with both fields in `[0,1]`, every detection
list and every blocked ratio, the three weights used sum to `0.9`, the
computed risk never exceeds `0.9`, the `min(·, 1.0)` clamp never binds
(the score equals the unclamped weighted sum), and with the default
thresholds BLOCK_IP is recommended exactly when the score is `0.9`. -/
theorem calculate_risk_le_ninety (ml : Option MLData) (d : List Detection)
    (b : Option Behavioral) (mode : AutomationLevel)
    (hml : ∀ m, ml = some m → 0 ≤ m.anomaly_score ∧ m.anomaly_score ≤ 1 ∧
      0 ≤ m.attack_probability ∧ m.attack_probability ≤ 1)
    (hb : ∀ x, b = some x → 0 ≤ x.blocked_ratio ∧ x.blocked_ratio ≤ 1) :
    WEIGHTS_ml + WEIGHTS_owasp + WEIGHTS_behavioral = (0.9 : ℚ)
    ∧ calculate_risk ml d b ≤ (0.9 : ℚ)
    ∧ calculate_risk ml d b =
        ml_score ml * WEIGHTS_ml + owasp_score d * WEIGHTS_owasp +
        behavioral_score b * WEIGHTS_behavioral
    ∧ ((decide_action mode (calculate_risk ml d b)).action = Action.BLOCK_IP ↔
        calculate_risk ml d b = (0.9 : ℚ)) := by
  have hms : ml_score ml ≤ 1 := ml_score_le_one ml hml
  have hos : owasp_score d ≤ 1 := owasp_score_le_one d
  have hbs : behavioral_score b ≤ 1 := min_le_right _ _
  have hsum : ml_score ml * WEIGHTS_ml + owasp_score d * WEIGHTS_owasp +
      behavioral_score b * WEIGHTS_behavioral ≤ (0.9 : ℚ) := by
    unfold WEIGHTS_ml WEIGHTS_owasp WEIGHTS_behavioral
    nlinarith
  have heq : calculate_risk ml d b =
      ml_score ml * WEIGHTS_ml + owasp_score d * WEIGHTS_owasp +
      behavioral_score b * WEIGHTS_behavioral := by
    unfold calculate_risk
    exact min_eq_left (le_trans hsum (by norm_num))
  have hle : calculate_risk ml d b ≤ (0.9 : ℚ) := heq ▸ hsum
  refine ⟨by norm_num [WEIGHTS_ml, WEIGHTS_owasp, WEIGHTS_behavioral], hle, heq, ?_⟩
  constructor
  · intro hact
    by_contra hne
    have hlt : calculate_risk ml d b < (0.9 : ℚ) := lt_of_le_of_ne hle hne
    have hlt' : calculate_risk ml d b < RISK_THRESHOLD_BLOCK := by
      have : RISK_THRESHOLD_BLOCK = (0.9 : ℚ) := rfl
      linarith [this ▸ hlt]
    rcases le_or_lt RISK_THRESHOLD_CAPTCHA (calculate_risk ml d b) with h2 | h2
    · rw [decide_action_of_captcha mode h2 hlt'] at hact
      simp at hact
    · rcases le_or_lt (0.5 : ℚ) (calculate_risk ml d b) with h3 | h3
      · rw [decide_action_of_rate_limit mode h3 h2] at hact
        simp at hact
      · rw [decide_action_of_alert mode h3] at hact
        simp at hact
  · intro hval
    have : RISK_THRESHOLD_BLOCK ≤ calculate_risk ml d b := by
      rw [hval]
      norm_num [RISK_THRESHOLD_BLOCK]
    rw [decide_action_of_block mode this]

/-- C2 witness: at the extreme admissible inputs (verdict `(1,1)`, one
CRITICAL detection, blocked ratio `1`) the score is still at most `0.9`
and BLOCK_IP is recommended exactly when the score equals `0.9`. -/
theorem calculate_risk_le_ninety_witness :
    calculate_risk (some { anomaly_score := 1, attack_probability := 1 })
        [{ dtype := "SQL_INJECTION", code := "A03:2021", severity := .CRITICAL,
           confidence := 0.9, ua := none }]
        (some { blocked_ratio := 1 }) ≤ (0.9 : ℚ)
    ∧ ((decide_action .auto
          (calculate_risk (some { anomaly_score := 1, attack_probability := 1 })
            [{ dtype := "SQL_INJECTION", code := "A03:2021", severity := .CRITICAL,
               confidence := 0.9, ua := none }]
            (some { blocked_ratio := 1 }))).action = Action.BLOCK_IP ↔
        calculate_risk (some { anomaly_score := 1, attack_probability := 1 })
          [{ dtype := "SQL_INJECTION", code := "A03:2021", severity := .CRITICAL,
             confidence := 0.9, ua := none }]
          (some { blocked_ratio := 1 }) = (0.9 : ℚ)) :=
  ⟨(calculate_risk_le_ninety _ _ _ .auto
      (fun m hm => by cases hm; norm_num) (fun x hx => by cases hx; norm_num)).2.1,
   (calculate_risk_le_ninety _ _ _ .auto
      (fun m hm => by cases hm; norm_num) (fun x hx => by cases hx; norm_num)).2.2.2⟩

/-! ## C4 — at most one detection per category, plus the scanner flag -/

/-- Mapping a `filterMap` image is a sublist of mapping the source, when
the two maps agree across the partial function. -/
theorem filterMap_map_sublist {α β γ : Type} (f : α → Option β) (g : β → γ)
    (h : α → γ) (H : ∀ a b, f a = some b → g b = h a) :
    ∀ l : List α, ((l.filterMap f).map g).Sublist (l.map h) := by
  intro l
  induction l with
  | nil => simp
  | cons x xs ih =>
    cases hfx : f x with
    | none =>
      simp only [List.filterMap_cons, hfx, List.map_cons]
      exact ih.cons _
    | some b =>
      simp only [List.filterMap_cons, hfx, List.map_cons]
      rw [H x b hfx]
      exact ih.cons₂ _

/-- The categories of the signature detections form a sublist of the
(pairwise distinct) category names of `OWASP_PATTERNS`. -/
theorem sig_detections_dtype_sublist (m : String → String → Bool) (c : String) :
    ((sig_detections m c).map Detection.dtype).Sublist
      (OWASP_PATTERNS.map PatternConfig.category) := by
  unfold sig_detections
  refine filterMap_map_sublist _ _ _ ?_ _
  intro a b hab
  rw [Option.map_eq_some'] at hab
  obtain ⟨w, _, rfl⟩ := hab
  rfl

/-- The seven category names of `OWASP_PATTERNS` are pairwise distinct. -/
theorem categories_nodup : (OWASP_PATTERNS.map PatternConfig.category).Nodup := by
  decide

/-- In a detection list with pairwise-distinct categories, each category
occurs at most once. -/
theorem count_filter_le_of_nodup {l : List Detection}
    (h : (l.map Detection.dtype).Nodup) (cat : String) :
    (l.filter (fun d => d.dtype == cat)).length ≤ 1 := by
  have h1 : (l.filter (fun d => d.dtype == cat)).length =
      (l.map Detection.dtype).count cat := by
    rw [← List.countP_eq_length_filter, List.count, List.countP_map]
    rfl
  rw [h1]
  exact List.nodup_iff_count_le_one.mp h cat

/-- The scanner user-agent loop yields at most one detection. -/
theorem ua_detections_length_le_one (u : String) :
    (ua_detections u).length ≤ 1 := by
  unfold ua_detections
  split <;> simp

/-- Every detection from the scanner user-agent loop has category SCANNER. -/
theorem ua_detections_scanner (u : String) :
    ∀ dd ∈ ua_detections u, dd.dtype = "SCANNER" := by
  intro dd hdd
  unfold ua_detections at hdd
  split at hdd <;> simp_all

/-- C4: `detect_owasp` is deterministic (same input, same output), its
output is the signature detections followed by the scanner-user-agent
flag, the signature loop yields at most one detection per attack
category (first matching pattern wins, the rest of the category is
skipped), and the user-agent check contributes at most one separate
SCANNER detection. -/
theorem detect_owasp_per_category (m : String → String → Bool)
    (req req2 : WafRequest) :
    (req2 = req → detect_owasp m req2 = detect_owasp m req)
    ∧ detect_owasp m req =
        sig_detections m (waf_content req) ++ ua_detections req.user_agent.toLower
    ∧ (∀ cat : String,
        ((sig_detections m (waf_content req)).filter
          (fun d => d.dtype == cat)).length ≤ 1)
    ∧ (ua_detections req.user_agent.toLower).length ≤ 1
    ∧ (∀ dd ∈ ua_detections req.user_agent.toLower, dd.dtype = "SCANNER") := by
  refine ⟨fun h => by rw [h], rfl, ?_, ua_detections_length_le_one _,
    ua_detections_scanner _⟩
  intro cat
  exact count_filter_le_of_nodup
    (List.Nodup.sublist (sig_detections_dtype_sublist m (waf_content req))
      categories_nodup) cat

/-- C4 witness: instantiating the theorem at a concrete matcher and a
concrete request. -/
theorem detect_owasp_per_category_witness :
    detect_owasp (fun _ _ => true) reqScanner =
      detect_owasp (fun _ _ => true) reqScanner
    ∧ ((sig_detections (fun _ _ => true) (waf_content reqScanner)).filter
        (fun d => d.dtype == "SQL_INJECTION")).length ≤ 1 :=
  ⟨(detect_owasp_per_category (fun _ _ => true) reqScanner reqScanner).1 rfl,
   (detect_owasp_per_category (fun _ _ => true) reqScanner reqScanner).2.2.1
     "SQL_INJECTION"⟩

/-! ## C5 — the reputation invariant and the breakpoint recomputation -/

/-- C5: after every observation the stored record satisfies
`blocked_requests ≤ total_requests`, and on every update (conflict branch)
the reputation score is recomputed from the updated blocked/total ratio
with the fixed breakpoints `> 0.5 → 0.1`, `> 0.2 → 0.3`, else `0.7`. -/
theorem update_ip_rep_invariant (existing : Option RepRecord) (b s : Bool)
    (h : ∀ r, existing = some r → r.blocked_requests ≤ r.total_requests) :
    ((update_ip_rep existing b s).blocked_requests ≤
      (update_ip_rep existing b s).total_requests)
    ∧ (∀ r, existing = some r →
        (update_ip_rep existing b s).reputation_score =
          (if ((update_ip_rep existing b s).blocked_requests : ℚ) /
              ((update_ip_rep existing b s).total_requests : ℚ) > 0.5 then 0.1
           else if ((update_ip_rep existing b s).blocked_requests : ℚ) /
              ((update_ip_rep existing b s).total_requests : ℚ) > 0.2 then 0.3
           else 0.7)) := by
  cases existing with
  | none =>
    refine ⟨?_, by intro r hr; simp at hr⟩
    simp only [update_ip_rep]
    cases b <;> simp [boolCount]
  | some r =>
    have hr := h r rfl
    refine ⟨?_, ?_⟩
    · simp only [update_ip_rep]
      cases b <;> simp [boolCount] <;> omega
    · intro r' hr'
      cases hr'
      rfl

/-- C5 witness: observing a blocked request from a source with 2 blocked
out of 4 keeps `blocked ≤ total` and recomputes the score to `0.1`
(ratio 3/5 > 0.5). -/
theorem update_ip_rep_invariant_witness :
    (update_ip_rep (some repWitness) true false).blocked_requests ≤
      (update_ip_rep (some repWitness) true false).total_requests
    ∧ (update_ip_rep (some repWitness) true false).reputation_score = 0.1 := by
  have hmain := update_ip_rep_invariant (some repWitness) true false
    (by intro r hr; cases hr; norm_num [repWitness])
  refine ⟨hmain.1, ?_⟩
  rw [hmain.2 repWitness rfl]
  norm_num [update_ip_rep, boolCount, repWitness]

/-! ## C6 — the score ignores the whitelist/blacklist flags -/

/-- C6 counterexample: the update trigger never consults the
whitelist/blacklist flags — on the next observation of a whitelisted
source (flag set, score 1.0) the stored score is overwritten with the
ratio-derived `0.7`, so the flag does not take precedence. -/
theorem whitelist_precedence_counterexample :
    repWhitelisted.is_whitelisted = true
    ∧ repWhitelisted.reputation_score = 1
    ∧ (update_ip_rep (some repWhitelisted) false false).is_whitelisted = true
    ∧ (update_ip_rep (some repWhitelisted) false false).reputation_score = 0.7
    ∧ (update_ip_rep (some repWhitelisted) false false).reputation_score ≠
        repWhitelisted.reputation_score := by
  refine ⟨rfl, by norm_num [repWhitelisted], rfl, ?_, ?_⟩ <;>
    norm_num [update_ip_rep, boolCount, repWhitelisted]

/-- C6 (amended): on every update the stored reputation score is the pure
function `rep_score_of` of the updated blocked/total ratio, that function
is monotonically non-increasing in the ratio, and the whitelisted or
blacklisted flag has no effect on the computed score (the trigger ignores
the flags; it only carries them through unchanged). -/
theorem rep_score_pure_monotone (r : RepRecord) (b s : Bool) :
    (update_ip_rep (some r) b s).reputation_score =
      rep_score_of (((r.blocked_requests + boolCount b : ℕ) : ℚ) /
        ((r.total_requests + 1 : ℕ) : ℚ))
    ∧ (∀ x y : ℚ, x ≤ y → rep_score_of y ≤ rep_score_of x)
    ∧ (update_ip_rep (some { r with is_whitelisted := true }) b s).reputation_score =
        (update_ip_rep (some r) b s).reputation_score
    ∧ (update_ip_rep (some { r with is_blacklisted := true }) b s).reputation_score =
        (update_ip_rep (some r) b s).reputation_score := by
  refine ⟨rfl, ?_, rfl, rfl⟩
  intro x y hxy
  unfold rep_score_of
  split_ifs <;> linarith

/-- C6 witness: instantiating the amended theorem at the concrete record
and at the concrete ratios `0.1 ≤ 0.6`. -/
theorem rep_score_pure_monotone_witness :
    (update_ip_rep (some repWitness) true false).reputation_score =
      rep_score_of ((3 : ℚ) / 5)
    ∧ rep_score_of 0.6 ≤ rep_score_of 0.1 := by
  have hmain := rep_score_pure_monotone repWitness true false
  refine ⟨?_, hmain.2.1 0.1 0.6 (by norm_num)⟩
  rw [hmain.1]
  norm_num [repWitness, boolCount]

/-! ## C7 — failed enforcement is recorded, never reported executed -/

/-- C7: when the enforcement point is unreachable or answers non-200 for a
BLOCK_IP action, `execute_action` reports `executed = false`, leaves the
shared store untouched (no deny entry), and the status the caller
persists is FAILED. -/
theorem execute_action_failure (resp : Except String ℕ) (store : RedisStore)
    (ip : String) (dur : ℕ)
    (h : ∀ c, resp = Except.ok c → c ≠ 200) :
    (execute_action resp store "BLOCK_IP" ip dur).1.executed = false
    ∧ (execute_action resp store "BLOCK_IP" ip dur).2 = store
    ∧ soar_action_status (execute_action resp store "BLOCK_IP" ip dur).1 =
        "FAILED" := by
  cases resp with
  | error e =>
    simp [execute_action, ENABLE_AUTO_BLOCK, soar_action_status]
  | ok c =>
    have hc := h c rfl
    simp [execute_action, ENABLE_AUTO_BLOCK, soar_action_status, hc]

/-- C7 witness: a 503 reply from the enforcement point. -/
theorem execute_action_failure_witness :
    (execute_action (Except.ok 503) [] "BLOCK_IP" "203.0.113.7" 60).1.executed =
      false
    ∧ (execute_action (Except.ok 503) [] "BLOCK_IP" "203.0.113.7" 60).2 = []
    ∧ soar_action_status
        (execute_action (Except.ok 503) [] "BLOCK_IP" "203.0.113.7" 60).1 =
        "FAILED" :=
  execute_action_failure (Except.ok 503) [] "203.0.113.7" 60
    (by intro c hc; cases hc; decide)

/-! ## C8 — rollback is idempotent on enforcement state -/

/-- C8: a second rollback of the same action leaves the enforcement state
exactly where the first rollback left it, every rollback call reports
success, and rolling back an action whose enforcement entry is absent
(as it is after a FAILED action, which created none) does not change the
store at all. -/
theorem rollback_idempotent (store : RedisStore) (a : SoarAction)
    (now now2 : ℕ) :
    (rollback (rollback store a now).1 ((rollback store a now).2.1) now2).1 =
      (rollback store a now).1
    ∧ (rollback store a now).2.2 = true
    ∧ (a.action_status = "FAILED" →
        (∀ k, rollback_key a = some k → getKey store k = none) →
        (rollback store a now).1 = store) := by
  refine ⟨?_, rfl, ?_⟩
  · have hkey : rollback_key ((rollback store a now).2.1) = rollback_key a := rfl
    show rollback_enforce (rollback_enforce store a) ((rollback store a now).2.1) =
      rollback_enforce store a
    unfold rollback_enforce
    rw [hkey]
    cases hk : rollback_key a with
    | none => rfl
    | some k =>
      simp only [delKey, List.filter_filter]
      congr 1
      funext p
      exact Bool.and_self _
  · intro _ hnone
    show rollback_enforce store a = store
    unfold rollback_enforce
    cases hk : rollback_key a with
    | none => rfl
    | some k =>
      have hget := hnone k hk
      unfold getKey at hget
      have hfind : List.find? (fun p => p.1 = k) store = none :=
        Option.map_eq_none'.mp hget
      have hall := List.find?_eq_none.mp hfind
      simp only [delKey]
      rw [List.filter_eq_self.mpr]
      intro p hp
      simpa using hall p hp

/-- C8 witness: rolling back a FAILED BLOCK_IP action leaves the store
unchanged, and a second rollback changes nothing further. -/
theorem rollback_idempotent_witness :
    (rollback (rollback [("ratelimit:x", "10")] failedAction 5).1
        ((rollback [("ratelimit:x", "10")] failedAction 5).2.1) 6).1 =
      (rollback [("ratelimit:x", "10")] failedAction 5).1
    ∧ (rollback [("ratelimit:x", "10")] failedAction 5).1 =
        [("ratelimit:x", "10")] := by
  have hmain := rollback_idempotent [("ratelimit:x", "10")] failedAction 5 6
  refine ⟨hmain.1, hmain.2.2 rfl ?_⟩
  intro k hk
  have h2 : rollback_key failedAction = some "blocked_ip:198.51.100.9" := rfl
  have h3 : k = "blocked_ip:198.51.100.9" := Option.some.inj (hk.symm.trans h2)
  subst h3
  rfl

/-! ## C9 — incident creation does not deduplicate -/

/-- C9 counterexample: with an OPEN incident already present for the same
source, an assessment at risk 0.95 still inserts a second incident row;
the existing row is not incremented, so duplicates are created. -/
theorem incident_dedup_counterexample :
    incOpen.status = "OPEN"
    ∧ (incident_step [incOpen] "BLOCK_IP" 0.95 "10.0.0.1" true).1.length = 2
    ∧ (incident_step [incOpen] "BLOCK_IP" 0.95 "10.0.0.1" true).1.head? =
        some incOpen
    ∧ (incident_step [incOpen] "BLOCK_IP" 0.95 "10.0.0.1" true).2 = some 1 := by
  have h98 : (0.95 : ℚ) ≥ 0.8 := by norm_num
  unfold incident_step
  rw [if_pos h98]
  exact ⟨rfl, rfl, rfl, rfl⟩

/-- C9 (amended): whenever the risk score is at least 0.8, `execute_soar`
unconditionally inserts a fresh incident row (severity CRITICAL from 0.9,
otherwise HIGH; status INVESTIGATING when the action executed, otherwise
OPEN), regardless of any existing OPEN or INVESTIGATING incident for the
same source, and never increments an existing row; below 0.8 no incident
is created. -/
theorem incident_step_always_inserts (incidents : List Incident)
    (act : String) (score : ℚ) (ip : String) (ex : Bool) :
    ((0.8 : ℚ) ≤ score →
      incident_step incidents act score ip ex =
        (incidents ++
          [ { incident_type := act,
              severity := if score ≥ (0.9 : ℚ) then "CRITICAL" else "HIGH",
              status := if ex then "INVESTIGATING" else "OPEN",
              source_ip := ip, total_requests_involved := 1,
              blocked_requests_count := 1 } ],
         some incidents.length))
    ∧ (score < (0.8 : ℚ) → incident_step incidents act score ip ex =
        (incidents, none)) := by
  constructor
  · intro h
    unfold incident_step
    rw [if_pos h]
    cases ex <;> rfl
  · intro h
    unfold incident_step
    rw [if_neg (not_le.mpr h)]

/-- C9 witness: at score 0.95 with an executed action, one CRITICAL
INVESTIGATING incident row is appended. -/
theorem incident_step_always_inserts_witness :
    incident_step [] "BLOCK_IP" 0.95 "10.0.0.1" true =
      ([ { incident_type := "BLOCK_IP", severity := "CRITICAL",
           status := "INVESTIGATING", source_ip := "10.0.0.1",
           total_requests_involved := 1, blocked_requests_count := 1 } ],
       some 0) := by
  have h := (incident_step_always_inserts [] "BLOCK_IP" 0.95 "10.0.0.1" true).1
    (by norm_num)
  rw [h]
  norm_num

/-! ## C10 — missing ML verdict degrades gracefully -/

/-- C10: with no ML verdict the assessment still completes: the ML
component is `0`, the score is exactly the weighted sum of the remaining
components (the same value as with an all-zero verdict — not
suppressed), and the decision is computed from that score as usual. -/
theorem assess_risk_no_ml (owasp : List Detection) (ip_rep : Option RepRecord)
    (mode : AutomationLevel) :
    ml_score none = 0
    ∧ (assess_risk none owasp ip_rep mode).1 =
        min (owasp_score owasp * WEIGHTS_owasp +
             behavioral_score (behavioral_of ip_rep) * WEIGHTS_behavioral) 1
    ∧ (assess_risk none owasp ip_rep mode).1 =
        (assess_risk (some { anomaly_score := 0, attack_probability := 0 })
          owasp ip_rep mode).1
    ∧ (assess_risk none owasp ip_rep mode).2 =
        decide_action mode (assess_risk none owasp ip_rep mode).1 := by
  refine ⟨rfl, ?_, ?_, rfl⟩
  · simp [assess_risk, calculate_risk, ml_score]
  · simp [assess_risk, calculate_risk, ml_score]

end SIEM
